import Mathlib

/-!
Shallow embedding of the Lunov dashboard backend (src/server.js): the session
identity, the inline permission checks, the mutual-guild resolver, the
per-guild configuration documents, the legacy welcome-channel map, and the
five session-facing route handlers, together with theorems settling the
specification's claims against this embedding.

Route handlers are embedded as pure functions from the optional session user
and the current document-store state to the route's result, the new store
state, and the list of store accesses (reads and writes) the handler
performed, in order.
-/

/-- One entry of the Discord profile's guild list (an element of
`req.user.guilds` in the source): `id`, `name`, `icon` and the raw
`permissions` bitmask. -/
structure UserGuild where
  id : String
  name : String
  icon : String
  permissions : Nat
  deriving DecidableEq, Repr

/-- The session identity (`req.user`): the Discord profile stored by the
verify callback. `accessToken` is absent on the raw profile and attached by
the verify callback (`profile.accessToken = accessToken`). -/
structure Identity where
  id : String
  guilds : List UserGuild
  accessToken : Option String := none
  deriving DecidableEq, Repr

/-- A guild entry of the bot's own guild list, as fetched from
`users/@me/guilds`; only its `id` is consulted by the source. -/
structure BotGuild where
  id : String
  deriving DecidableEq, Repr

/-- The `settings` sub-document of GuildSchema with its schema defaults.
The field `prefix_` embeds the source field `settings.prefix` (renamed
because its source spelling is a reserved word in Lean). -/
structure GuildSettings where
  prefix_ : String := "!"
  muteRole : String := ""
  welcomeChannel : String := ""
  leaveChannel : String := ""
  logChannel : String := ""
  deriving DecidableEq, Repr

/-- A document of the `guilds` collection (Mongoose model `Guild`): `name`
and `icon` carry no schema default and may be absent. -/
structure Guild where
  guildId : String
  name : Option String := none
  icon : Option String := none
  settings : GuildSettings := {}
  deriving DecidableEq, Repr

/-- The singleton `guild_settings` document with `_id = "welcome_channels"`:
its `channels` map from guild id to channel ref, embedded as an association
list holding at most one entry per key. -/
structure LegacyWelcomeMap where
  channels : List (String × String) := []
  deriving DecidableEq, Repr

/-- The document store visible to this backend: the `guilds` collection and
the singleton legacy welcome-channel document. -/
structure Store where
  guilds : List Guild := []
  legacy : LegacyWelcomeMap := {}
  deriving DecidableEq, Repr

/-- One store access performed by a route handler. -/
inductive StoreAccess where
  | readGuild (guildId : String)
  | writeGuild (guildId : String)
  | readLegacy
  | readAllGuilds
  | writeLegacy (guildId : String)
  deriving DecidableEq, Repr

/-- True exactly on the write accesses. -/
def StoreAccess.isWrite : StoreAccess → Bool
  | .writeGuild _ => true
  | .writeLegacy _ => true
  | _ => false

/-- JavaScript bitwise AND on a non-negative number: `&` converts its
operands to 32-bit integers, so only the low 32 bits of the left operand
survive before the AND with the small constant. -/
def jsBitAnd (m k : Nat) : Nat := (m % 2 ^ 32) &&& k

/-- The inline permission check shared by POST /api/guild/:id/welcome-channel
and GET /api/discord/:guildId/channels:
`req.user.guilds.find(g => g.id === guildId && (g.permissions & 0x20))`
is truthy exactly when such an entry exists (0x20 is MANAGE_GUILD). -/
def canAdminister (u : Identity) (guildId : String) : Bool :=
  (u.guilds.find? fun g => g.id == guildId && (jsBitAnd g.permissions 0x20 != 0)).isSome

/-- The mutual-guild computation of GET /api/guilds:
`userGuilds.filter(g => botGuilds.find(b => b.id === g.id))`; the `find`
result is an object, truthy exactly when present. -/
def mutualGuilds (userGuilds : List UserGuild) (botGuilds : List BotGuild) :
    List UserGuild :=
  userGuilds.filter fun g => (botGuilds.find? fun b => b.id == g.id).isSome

/-- Predicate of the `{ guildId }` query filter on the `guilds` collection. -/
def matchesGuildId (guildId : String) (g : Guild) : Bool := g.guildId == guildId

/-- Result of GET /api/me. -/
inductive MeResult where
  | notLoggedIn
  | ok (user : Identity)
  deriving DecidableEq, Repr

/-- Result of GET /api/guilds. -/
inductive GuildsResult where
  | notLoggedIn
  | ok (guilds : List UserGuild)
  deriving DecidableEq, Repr

/-- Result of GET /api/guild/:id. -/
inductive GetGuildResult where
  | notLoggedIn
  | guildNotFound
  | missingPermission
  | ok (record : Guild)
  deriving DecidableEq, Repr

/-- Result of POST /api/guild/:id. -/
inductive UpdateGuildResult where
  | unauthorized
  | success
  deriving DecidableEq, Repr

/-- Result of POST /api/guild/:id/welcome-channel. -/
inductive WelcomeChannelResult where
  | unauthorized
  | missingPermission
  | success (guildId welcomeChannel : String)
  deriving DecidableEq, Repr

/-- The DiscordStrategy verify callback: attaches the provider access token
to the profile and hands the profile over as the session user. -/
def verifyCallback (accessToken _refreshToken : String) (profile : Identity) :
    Identity :=
  { profile with accessToken := some accessToken }

/-- GET /api/me: `res.json(req.user)` behind the authentication check. -/
def apiMe (user : Option Identity) (store : Store) :
    MeResult × Store × List StoreAccess :=
  match user with
  | none => (.notLoggedIn, store, [])
  | some u => (.ok u, store, [])

/-- GET /api/guilds: authentication check, then the mutual-guild filter over
the fetched bot guild list; no store access. -/
def apiGuilds (user : Option Identity) (botGuilds : List BotGuild)
    (store : Store) : GuildsResult × Store × List StoreAccess :=
  match user with
  | none => (.notLoggedIn, store, [])
  | some u => (.ok (mutualGuilds u.guilds botGuilds), store, [])

/-- GET /api/guild/:id: authentication check; 404 when the guild is absent
from the user's guild list; 403 unless `(permissions & 0x20) === 0x20`; then
`Guild.findOne({ guildId })` and, when absent, `Guild.create` seeded with the
user-guild name and icon and the schema defaults. -/
def apiGetGuild (user : Option Identity) (guildId : String) (store : Store) :
    GetGuildResult × Store × List StoreAccess :=
  match user with
  | none => (.notLoggedIn, store, [])
  | some u =>
    match u.guilds.find? fun g => g.id == guildId with
    | none => (.guildNotFound, store, [])
    | some userGuild =>
      if jsBitAnd userGuild.permissions 0x20 == 0x20 then
        match store.guilds.find? (matchesGuildId guildId) with
        | some record => (.ok record, store, [.readGuild guildId])
        | none =>
          let record : Guild :=
            { guildId := guildId, name := some userGuild.name,
              icon := some userGuild.icon, settings := {} }
          (.ok record,
           { store with guilds := store.guilds ++ [record] },
           [.readGuild guildId, .writeGuild guildId])
      else (.missingPermission, store, [])

/-- The request body of POST /api/guild/:id after destructuring: each field
is `some v` when the key is present in the JSON body and `none` when it is
absent (JavaScript `undefined`). -/
structure PartialSettings where
  prefix_ : Option String := none
  muteRole : Option String := none
  welcomeChannel : Option String := none
  leaveChannel : Option String := none
  logChannel : Option String := none
  deriving DecidableEq, Repr

/-- Effect of the `$set` stage with the dotted paths `settings.prefix` …
`settings.logChannel` on a settings sub-document: Mongoose update casting
drops the keys whose value is `undefined`, so exactly the defined fields are
set and the remaining fields are left untouched. -/
def applySet (p : PartialSettings) (s : GuildSettings) : GuildSettings :=
  { prefix_ := p.prefix_.getD s.prefix_,
    muteRole := p.muteRole.getD s.muteRole,
    welcomeChannel := p.welcomeChannel.getD s.welcomeChannel,
    leaveChannel := p.leaveChannel.getD s.leaveChannel,
    logChannel := p.logChannel.getD s.logChannel }

/-- Updates the first element satisfying `p` in place, leaving every other
element unchanged. -/
def updateFirst (p : α → Bool) (f : α → α) : List α → List α
  | [] => []
  | x :: xs => if p x then f x :: xs else x :: updateFirst p f xs

/-- Model of `Guild.findOneAndUpdate({ guildId }, { $set : … },
{ new : true, upsert : true })`: updates the first (by the unique-key
constraint, only) document whose `guildId` matches; when none matches,
inserts a document built from the query key, the `$set` fields, and the
schema defaults for the paths left unset. -/
def findOneAndUpdateUpsert (guildId : String) (p : PartialSettings)
    (guilds : List Guild) : List Guild :=
  if guilds.any (matchesGuildId guildId) then
    updateFirst (matchesGuildId guildId)
      (fun g => { g with settings := applySet p g.settings }) guilds
  else
    guilds ++ [{ guildId := guildId, settings := applySet p {} }]

/-- POST /api/guild/:id: authentication check only — the source performs no
permission check on this route — then the upsert of the destructured body. -/
def apiUpdateGuild (user : Option Identity) (guildId : String)
    (body : PartialSettings) (store : Store) :
    UpdateGuildResult × Store × List StoreAccess :=
  match user with
  | none => (.unauthorized, store, [])
  | some _ =>
    (.success,
     { store with guilds := findOneAndUpdateUpsert guildId body store.guilds },
     [.writeGuild guildId])

/-- Model of `$set` with the computed key `channels.<guildId>` on the
singleton welcome-channels document: replaces the entry for `guildId` when
present, otherwise adds it. -/
def setChannel (guildId welcomeChannel : String) :
    List (String × String) → List (String × String)
  | [] => [(guildId, welcomeChannel)]
  | e :: es =>
    if e.1 == guildId then (guildId, welcomeChannel) :: es
    else e :: setChannel guildId welcomeChannel es

/-- Lookup of a guild's entry in the channels association list. -/
def lookupChannel (guildId : String) (l : List (String × String)) :
    Option String :=
  (l.find? fun e => e.1 == guildId).map Prod.snd

/-- POST /api/guild/:id/welcome-channel: authentication check, the inline
permission check, then one `updateOne` upsert against the singleton legacy
document; the `guilds` collection is not touched. -/
def apiSetWelcomeChannel (user : Option Identity)
    (guildId welcomeChannel : String) (store : Store) :
    WelcomeChannelResult × Store × List StoreAccess :=
  match user with
  | none => (.unauthorized, store, [])
  | some u =>
    if canAdminister u guildId then
      (.success guildId welcomeChannel,
       { store with
          legacy := ⟨setChannel guildId welcomeChannel store.legacy.channels⟩ },
       [.writeLegacy guildId])
    else (.missingPermission, store, [])

/-- The payload of GET /api/debug/welcome-channels: the legacy channels map
and the dashboard-side projection `(guildId, settings.welcomeChannel)`. -/
structure WelcomeComparison where
  bot_channels : List (String × String)
  dashboard : List (String × String)
  deriving DecidableEq, Repr

/-- GET /api/debug/welcome-channels: reads the singleton legacy document and
runs `Guild.find({ "settings.welcomeChannel" : { $ne : "" } })` projected to
`guildId` and `settings.welcomeChannel`; it performs no write. -/
def apiDebugWelcomeChannels (store : Store) :
    WelcomeComparison × Store × List StoreAccess :=
  (⟨store.legacy.channels,
    (store.guilds.filter fun g => g.settings.welcomeChannel != "").map
      fun g => (g.guildId, g.settings.welcomeChannel)⟩,
   store, [.readLegacy, .readAllGuilds])

/-- The document `Guild.create` builds for a missing guild in GET
/api/guild/:id: the query key, the user-guild's name and icon, and the
schema defaults. -/
def createdDoc (guildId : String) (userGuild : UserGuild) : Guild :=
  { guildId := guildId, name := some userGuild.name,
    icon := some userGuild.icon, settings := {} }

/-- An empty document store. -/
def emptyStore : Store := ⟨[], ⟨[]⟩⟩

/-- Fixture: an identity administering guild G1 with bitmask 0x28. -/
def uAdmin : Identity := ⟨"U", [⟨"G1", "Guild One", "icon1", 0x28⟩], some "tok"⟩

/-- Fixture: a configuration document for G1 with a non-default welcome
channel. -/
def gDoc1 : Guild := ⟨"G1", some "Guild One", some "icon1", ⟨"!", "", "W", "", ""⟩⟩

/-- Fixture: a store holding the G1 document and a legacy entry for G2. -/
def st1 : Store := ⟨[gDoc1], ⟨[("G2", "C2")]⟩⟩

/-- Bit 5 extraction: `m &&& 0x20` is the 0x20-weighted value of bit 5. -/
theorem land32_eq (m : Nat) : m &&& 0x20 = (m.testBit 5).toNat * 0x20 := by
  have h := Nat.and_two_pow m 5
  norm_num at h
  exact h

/-- The JavaScript 32-bit truncation is invisible to the 0x20 test. -/
theorem jsBitAnd32_eq (m : Nat) : jsBitAnd m 0x20 = m &&& 0x20 := by
  unfold jsBitAnd
  have h1 : (m % 2 ^ 32) &&& 0x20 = ((m % 2 ^ 32).testBit 5).toNat * 0x20 :=
    land32_eq _
  have h2 : (m % 2 ^ 32).testBit 5 = m.testBit 5 := by
    rw [Nat.testBit_mod_two_pow]
    norm_num
  rw [h1, h2, ← land32_eq]

/-- For the single bit 0x20, being non-zero and equalling 0x20 coincide. -/
theorem land32_ne_zero_iff (m : Nat) : m &&& 0x20 ≠ 0 ↔ m &&& 0x20 = 0x20 := by
  rw [land32_eq]
  cases m.testBit 5 <;> simp

/-- A successful `find?` forces `any` to hold. -/
theorem any_of_find?_eq_some {α} {p : α → Bool} {l : List α} {a : α}
    (h : l.find? p = some a) : l.any p = true := by
  rw [List.any_eq_true]
  exact ⟨a, List.mem_of_find?_eq_some h, List.find?_some h⟩

/-- After an in-place update of the first match, `find?` returns the updated
element, provided the update preserves the predicate. -/
theorem find?_updateFirst {α} {p : α → Bool} {f : α → α} {l : List α} {a : α}
    (h : l.find? p = some a) (hf : p (f a) = true) :
    (updateFirst p f l).find? p = some (f a) := by
  induction l with
  | nil => simp [List.find?] at h
  | cons x xs ih =>
    by_cases hx : p x = true
    · rw [List.find?_cons_of_pos _ hx] at h
      cases h
      rw [updateFirst, if_pos hx, List.find?_cons_of_pos _ hf]
    · rw [List.find?_cons_of_neg _ hx] at h
      rw [updateFirst, if_neg hx, List.find?_cons_of_neg _ hx]
      exact ih h

/-- Claim C3: `canAdminister identity guildId` is true exactly when the
identity's guild list holds an entry whose id equals the target guild and
whose permission bitmask has the 0x20 bit set; it is false when the entry is
absent and for every bitmask lacking that bit, including bitmask 0. -/
theorem C3_canAdminister_iff_manage_bit (u : Identity) (guildId : String) :
    canAdminister u guildId = true ↔
      ∃ g ∈ u.guilds, g.id = guildId ∧ g.permissions &&& 0x20 ≠ 0 := by
  unfold canAdminister
  rw [List.find?_isSome]
  simp only [Bool.and_eq_true, beq_iff_eq, bne_iff_ne, ne_eq, jsBitAnd32_eq]

/-- Claim C6: `mutualGuilds` returns exactly the user-guild entries whose id
occurs in the bot's guild list, as a subsequence of the user's list (hence in
the user's own membership order), and it is empty when no guild overlaps. -/
theorem C6_mutualGuilds_intersection (userGuilds : List UserGuild)
    (botGuilds : List BotGuild) :
    (∀ g, g ∈ mutualGuilds userGuilds botGuilds ↔
        g ∈ userGuilds ∧ ∃ b ∈ botGuilds, b.id = g.id) ∧
    List.Sublist (mutualGuilds userGuilds botGuilds) userGuilds ∧
    ((∀ g ∈ userGuilds, ∀ b ∈ botGuilds, b.id ≠ g.id) →
      mutualGuilds userGuilds botGuilds = []) := by
  refine ⟨?_, List.filter_sublist _, ?_⟩
  · intro g
    unfold mutualGuilds
    rw [List.mem_filter, List.find?_isSome]
    simp only [beq_iff_eq]
  · intro h
    unfold mutualGuilds
    rw [List.filter_eq_nil_iff]
    intro g hg hcontra
    rw [List.find?_isSome] at hcontra
    obtain ⟨b, hb, hbe⟩ := hcontra
    exact h g hg b hb (by rwa [beq_iff_eq] at hbe)

/-- Evaluates C6 on a concrete disjoint pair of guild lists. -/
theorem C6_mutualGuilds_witness :
    mutualGuilds [⟨"G1", "n", "i", 8⟩] [⟨"G9"⟩] = [] :=
  (C6_mutualGuilds_intersection [⟨"G1", "n", "i", 8⟩] [⟨"G9"⟩]).2.2 (by decide)

/-- Claim C7: with no identity attached to the session, every
session-required route answers the 401 unauthenticated error, leaves the
store unchanged and performs no store access. -/
theorem C7_unauthenticated_routes_401 (guildId welcomeChannel : String)
    (body : PartialSettings) (botGuilds : List BotGuild) (store : Store) :
    apiMe none store = (.notLoggedIn, store, []) ∧
    apiGuilds none botGuilds store = (.notLoggedIn, store, []) ∧
    apiGetGuild none guildId store = (.notLoggedIn, store, []) ∧
    apiUpdateGuild none guildId body store = (.unauthorized, store, []) ∧
    apiSetWelcomeChannel none guildId welcomeChannel store =
      (.unauthorized, store, []) :=
  ⟨rfl, rfl, rfl, rfl, rfl⟩

/-- Claim C10: the 200 response of GET /api/me is the entire stored session
profile, including the provider access token that the verify callback
attached at authentication time. -/
theorem C10_me_returns_live_access_token (accessToken refreshToken : String)
    (profile : Identity) (store : Store) :
    apiMe (some (verifyCallback accessToken refreshToken profile)) store =
      (.ok (verifyCallback accessToken refreshToken profile), store, []) ∧
    (verifyCallback accessToken refreshToken profile).accessToken =
      some accessToken :=
  ⟨rfl, rfl⟩

/-- Claim C1, counterexample at the update-settings operation: an
authenticated caller whose only G1 membership carries bitmask 0x8, so that
`canAdminister` is false, still drives POST /api/guild/:id to write the
document store and answer success, instead of short-circuiting with an
authorization error and leaving the store untouched. -/
theorem C1_updateSettings_writes_without_permission :
    canAdminister ⟨"U8", [⟨"G1", "n", "i", 8⟩], none⟩ "G1" = false ∧
    apiUpdateGuild (some ⟨"U8", [⟨"G1", "n", "i", 8⟩], none⟩) "G1"
        { prefix_ := some "?" } emptyStore =
      (.success,
       ⟨[{ guildId := "G1", settings := { prefix_ := "?" } }], ⟨[]⟩⟩,
       [.writeGuild "G1"]) := by
  decide

/-- Claim C8: an authenticated GET of a guild configuration answers 404 when
the guild is absent from the caller's membership list and 403 when the entry
is present without the 0x20 bit; in both cases the store state is unchanged
and no store access happens. -/
theorem C8_get_guild_404_vs_403 (u : Identity) (guildId : String)
    (store : Store) :
    ((u.guilds.find? fun g => g.id == guildId) = none →
      apiGetGuild (some u) guildId store = (.guildNotFound, store, [])) ∧
    (∀ userGuild,
      (u.guilds.find? fun g => g.id == guildId) = some userGuild →
      userGuild.permissions &&& 0x20 = 0 →
      apiGetGuild (some u) guildId store = (.missingPermission, store, [])) := by
  constructor
  · intro h
    simp only [apiGetGuild, h]
  · intro ug h hperm
    have hb : (jsBitAnd ug.permissions 0x20 == 0x20) = false := by
      rw [jsBitAnd32_eq, hperm]
      decide
    simp only [apiGetGuild, h, hb]
    simp

/-- Evaluates C8: a caller without a G1 membership receives 404 and a caller
holding G1 with bitmask 0x8 receives 403, both leaving the store alone. -/
theorem C8_get_guild_witness :
    apiGetGuild (some ⟨"U1", [⟨"G2", "n", "i", 32⟩], none⟩) "G1" st1 =
      (.guildNotFound, st1, []) ∧
    apiGetGuild (some ⟨"U2", [⟨"G1", "n", "i", 8⟩], none⟩) "G1" st1 =
      (.missingPermission, st1, []) :=
  ⟨(C8_get_guild_404_vs_403 ⟨"U1", [⟨"G2", "n", "i", 32⟩], none⟩ "G1" st1).1
      (by decide),
   (C8_get_guild_404_vs_403 ⟨"U2", [⟨"G1", "n", "i", 8⟩], none⟩ "G1" st1).2
      ⟨"G1", "n", "i", 8⟩ (by decide) (by decide)⟩

/-- Claim C5: getOrCreate idempotence. For a guild absent from the store, an
authorized GET creates and returns the document seeded with the fallback name
and icon and the default settings (prefix "!", empty channel and role refs),
and an immediately repeated GET returns that same document with no further
write. -/
theorem C5_get_or_create_idempotent (u : Identity) (guildId : String)
    (store : Store) (userGuild : UserGuild)
    (hfind : (u.guilds.find? fun g => g.id == guildId) = some userGuild)
    (hperm : userGuild.permissions &&& 0x20 ≠ 0)
    (habsent : store.guilds.find? (matchesGuildId guildId) = none) :
    apiGetGuild (some u) guildId store =
      (.ok (createdDoc guildId userGuild),
       { store with guilds := store.guilds ++ [createdDoc guildId userGuild] },
       [.readGuild guildId, .writeGuild guildId]) ∧
    apiGetGuild (some u) guildId
        { store with guilds := store.guilds ++ [createdDoc guildId userGuild] } =
      (.ok (createdDoc guildId userGuild),
       { store with guilds := store.guilds ++ [createdDoc guildId userGuild] },
       [.readGuild guildId]) := by
  have hb : (jsBitAnd userGuild.permissions 0x20 == 0x20) = true := by
    rw [jsBitAnd32_eq, (land32_ne_zero_iff _).mp hperm]
    decide
  constructor
  · simp [apiGetGuild, createdDoc, hfind, hb, habsent]
  · simp [apiGetGuild, createdDoc, hfind, hb, habsent, matchesGuildId]

/-- Evaluates C5 at the admin fixture over an empty store: the first GET
creates the seeded G1 document and the second GET returns it unchanged. -/
theorem C5_get_or_create_witness :
    apiGetGuild (some uAdmin) "G1" emptyStore =
      (.ok ⟨"G1", some "Guild One", some "icon1", ⟨"!", "", "", "", ""⟩⟩,
       ⟨[⟨"G1", some "Guild One", some "icon1", ⟨"!", "", "", "", ""⟩⟩], ⟨[]⟩⟩,
       [.readGuild "G1", .writeGuild "G1"]) ∧
    apiGetGuild (some uAdmin) "G1"
        ⟨[⟨"G1", some "Guild One", some "icon1", ⟨"!", "", "", "", ""⟩⟩], ⟨[]⟩⟩ =
      (.ok ⟨"G1", some "Guild One", some "icon1", ⟨"!", "", "", "", ""⟩⟩,
       ⟨[⟨"G1", some "Guild One", some "icon1", ⟨"!", "", "", "", ""⟩⟩], ⟨[]⟩⟩,
       [.readGuild "G1"]) :=
  C5_get_or_create_idempotent uAdmin "G1" emptyStore
    ⟨"G1", "Guild One", "icon1", 0x28⟩ (by decide) (by decide) (by decide)

/-- Setting a guild's channel makes its own lookup return that channel. -/
theorem lookupChannel_setChannel_self (guildId v : String)
    (l : List (String × String)) :
    lookupChannel guildId (setChannel guildId v l) = some v := by
  induction l with
  | nil =>
    simp [setChannel, lookupChannel, List.find?]
  | cons e es ih =>
    by_cases he : (e.1 == guildId) = true
    · simp [setChannel, he, lookupChannel, List.find?]
    · simp only [setChannel, if_neg he]
      simpa [lookupChannel, List.find?, he] using ih

/-- Setting one guild's channel leaves every other guild's lookup alone. -/
theorem lookupChannel_setChannel_other (guildId g' v : String)
    (l : List (String × String)) (h : g' ≠ guildId) :
    lookupChannel g' (setChannel guildId v l) = lookupChannel g' l := by
  have hne : (guildId == g') = false :=
    beq_eq_false_iff_ne.mpr fun hc => h (hc.symm)
  induction l with
  | nil =>
    simp [setChannel, lookupChannel, List.find?, hne]
  | cons e es ih =>
    by_cases he : (e.1 == guildId) = true
    · have hee : (e.1 == g') = false := by
        rw [beq_iff_eq] at he
        rw [he]
        exact hne
      simp [setChannel, he, lookupChannel, List.find?, hne, hee]
    · simp only [setChannel, if_neg he]
      by_cases hg : (e.1 == g') = true
      · simp [lookupChannel, List.find?, hg]
      · simpa [lookupChannel, List.find?, hg] using ih

/-- Claim C4: an authorized set-welcome-channel call answers success carrying
the guild id and channel ref, leaves the guild-configuration documents
unchanged, sets exactly the target guild's legacy entry, and leaves every
other guild's legacy entry unchanged. -/
theorem C4_set_welcome_channel_frame (u : Identity)
    (guildId welcomeChannel : String) (store : Store)
    (h : canAdminister u guildId = true) :
    (apiSetWelcomeChannel (some u) guildId welcomeChannel store).1 =
      .success guildId welcomeChannel ∧
    (apiSetWelcomeChannel (some u) guildId welcomeChannel store).2.1.guilds =
      store.guilds ∧
    lookupChannel guildId
      (apiSetWelcomeChannel (some u) guildId
        welcomeChannel store).2.1.legacy.channels = some welcomeChannel ∧
    ∀ g', g' ≠ guildId →
      lookupChannel g'
        (apiSetWelcomeChannel (some u) guildId
          welcomeChannel store).2.1.legacy.channels =
      lookupChannel g' store.legacy.channels := by
  simp only [apiSetWelcomeChannel, h, if_true]
  refine ⟨trivial, trivial, lookupChannel_setChannel_self _ _ _,
    fun g' hg' => lookupChannel_setChannel_other _ _ _ _ hg'⟩

/-- Evaluates C4 at the specification's scenario: bitmask 0x28 setting
"12345" for G1 over a store holding a G1 configuration document and a legacy
entry for G2; the G2 entry and the G1 document survive unchanged. -/
theorem C4_set_welcome_channel_witness :
    (apiSetWelcomeChannel (some uAdmin) "G1" "12345" st1).1 =
      .success "G1" "12345" ∧
    (apiSetWelcomeChannel (some uAdmin) "G1" "12345" st1).2.1.guilds =
      st1.guilds ∧
    lookupChannel "G1"
      (apiSetWelcomeChannel (some uAdmin) "G1" "12345" st1).2.1.legacy.channels =
      some "12345" ∧
    lookupChannel "G2"
      (apiSetWelcomeChannel (some uAdmin) "G1" "12345" st1).2.1.legacy.channels =
      lookupChannel "G2" st1.legacy.channels := by
  obtain ⟨h1, h2, h3, h4⟩ :=
    C4_set_welcome_channel_frame uAdmin "G1" "12345" st1 (by decide)
  exact ⟨h1, h2, h3, h4 "G2" (by decide)⟩

/-- Claim C2: on an existing configuration document, updating with only a
prefix value and then with only a mute-role value leaves the document equal
to the original with exactly those two settings replaced: the prefix set by
the first call survives the second call, and the name, icon and every
settings field absent from the bodies keep their original values. -/
theorem C2_partial_update_independence (u : Identity) (guildId : String)
    (store : Store) (doc : Guild)
    (h : store.guilds.find? (matchesGuildId guildId) = some doc) :
    ((apiUpdateGuild (some u) guildId { muteRole := some "R" }
        (apiUpdateGuild (some u) guildId { prefix_ := some "?" }
          store).2.1).2.1).guilds.find? (matchesGuildId guildId) =
      some { doc with settings :=
        { doc.settings with prefix_ := "?", muteRole := "R" } } := by
  have step : ∀ (p : PartialSettings) (l : List Guild) (d : Guild),
      l.find? (matchesGuildId guildId) = some d →
      (findOneAndUpdateUpsert guildId p l).find? (matchesGuildId guildId) =
        some { d with settings := applySet p d.settings } := by
    intro p l d hd
    unfold findOneAndUpdateUpsert
    rw [if_pos (any_of_find?_eq_some hd)]
    have hpd : matchesGuildId guildId d = true := List.find?_some hd
    exact find?_updateFirst hd hpd
  exact step { muteRole := some "R" } _ _
    (step { prefix_ := some "?" } store.guilds doc h)

/-- Evaluates C2 on a concrete store: after the two partial updates, the G1
document keeps its welcome channel and carries the new prefix and mute role. -/
theorem C2_partial_update_witness :
    ((apiUpdateGuild (some uAdmin) "G1" { muteRole := some "R" }
        (apiUpdateGuild (some uAdmin) "G1" { prefix_ := some "?" }
          st1).2.1).2.1).guilds.find? (matchesGuildId "G1") =
      some ⟨"G1", some "Guild One", some "icon1", ⟨"?", "R", "W", "", ""⟩⟩ :=
  C2_partial_update_independence uAdmin "G1" st1 gDoc1 (by decide)

/-- Claim C9: the consistency report leaves the store unchanged and performs
no write access; its legacy side is the stored legacy channels map, and its
dashboard side holds exactly the pairs of guild id and welcome channel of
those stored documents whose welcome channel is non-empty, so documents with
an empty welcome channel are omitted. -/
theorem C9_debug_report_readonly_nonempty (store : Store) :
    (apiDebugWelcomeChannels store).2.1 = store ∧
    (apiDebugWelcomeChannels store).2.2.filter StoreAccess.isWrite = [] ∧
    (apiDebugWelcomeChannels store).1.bot_channels = store.legacy.channels ∧
    ∀ e, e ∈ (apiDebugWelcomeChannels store).1.dashboard ↔
      ∃ g ∈ store.guilds, g.settings.welcomeChannel ≠ "" ∧
        e = (g.guildId, g.settings.welcomeChannel) := by
  refine ⟨rfl, rfl, rfl, ?_⟩
  intro e
  simp only [apiDebugWelcomeChannels, List.mem_map, List.mem_filter,
    bne_iff_ne, ne_eq]
  constructor
  · rintro ⟨g, ⟨hg, hne⟩, rfl⟩
    exact ⟨g, hg, hne, rfl⟩
  · rintro ⟨g, hg, hne, rfl⟩
    exact ⟨g, ⟨hg, hne⟩, rfl⟩
